import Mathlib

/-!
Verification of the Paddle source fragments: the strided view gradient
kernel pair (`paddle/phi/kernels/stride/view_grad_kernel.cc`), the
`pir_prim` python-test CMake wiring (`test/prim/pir_prim/CMakeLists.txt`),
the mkldnn cc-test CMake wiring, and the operator-helper API header
(`paddle/fluid/pir/dialect/operator/ir/manual_api.h`).
-/

namespace Paddle

/-! ## Data model for the view kernels -/

/-- The subset of `phi::DataType` values needed for the view kernels. -/
inductive DataType where
  | UNDEFINED
  | BOOL
  | INT8
  | INT32
  | INT64
  | FLOAT16
  | FLOAT32
  | FLOAT64
deriving DecidableEq, Repr

/-- `common::DDim`: a dimension vector, modelled as its list of sizes. -/
structure DDim where
  sizes : List Int
deriving DecidableEq, Repr

/-- `common::make_ddim`: builds a `DDim` from a `std::vector<int64_t>`. -/
def make_ddim (v : List Int) : DDim := ⟨v⟩

/-- `common::vectorize<int64_t>`: converts a `DDim` to a
`std::vector<int64_t>`. -/
def vectorize (d : DDim) : List Int := d.sizes

/-- `phi::DenseTensor`, restricted to the fields the view kernels touch:
its dims, its data type and its (abstract) underlying data. -/
structure DenseTensor where
  dims : DDim
  dtype : DataType
  data : List Int
deriving DecidableEq, Repr

/-- `phi::ViewShapeGradKernel` from `view_grad_kernel.cc`:
it forwards to `ViewShapeKernel` on `out_grad` with
`common::vectorize<int64_t>(input.dims())`.  The forward kernel
`ViewShapeKernel` is declared in `view_kernel.h` but its body is not part
of the provided source, so the embedding is parametric in it, exactly as
the template is parametric in `Context`.  The `input_grad` output slot is
modelled as the returned tensor. -/
def ViewShapeGradKernel {Ctx : Type}
    (viewShapeKernel : Ctx → DenseTensor → List Int → DenseTensor)
    (dev_ctx : Ctx) (input : DenseTensor) (out_grad : DenseTensor)
    (_dims : List Int) : DenseTensor :=
  viewShapeKernel dev_ctx out_grad (vectorize input.dims)

/-- `phi::ViewDtypeGradKernel` from `view_grad_kernel.cc`:
it forwards to `ViewDtypeKernel` on `out_grad` with `input.dtype()`.
As for the shape kernel, the forward kernel is a parameter. -/
def ViewDtypeGradKernel {Ctx : Type}
    (viewDtypeKernel : Ctx → DenseTensor → DataType → DenseTensor)
    (dev_ctx : Ctx) (input : DenseTensor) (out_grad : DenseTensor)
    (_dtype : DataType) : DenseTensor :=
  viewDtypeKernel dev_ctx out_grad input.dtype

/-- A concrete forward shape-view kernel used only by witnesses: it
returns a tensor with the requested dims.  It satisfies the hypothesis of
the gradient-shape postcondition. -/
def sampleViewShapeKernel (_ : Unit) (t : DenseTensor) (d : List Int) :
    DenseTensor :=
  { t with dims := make_ddim d }

/-- A concrete forward dtype-view kernel used only by witnesses. -/
def sampleViewDtypeKernel (_ : Unit) (t : DenseTensor) (dt : DataType) :
    DenseTensor :=
  { t with dtype := dt }

/-- A sample tensor for witnesses. -/
def tensorA : DenseTensor := ⟨⟨[2, 3]⟩, DataType.FLOAT32, [1, 2, 3, 4, 5, 6]⟩

/-- A second sample tensor for witnesses: same dims as `tensorA`, but a
different dtype and different data. -/
def tensorB : DenseTensor := ⟨⟨[2, 3]⟩, DataType.INT64, [9, 9, 9, 9, 9, 9]⟩

/-- A sample out_grad tensor for witnesses. -/
def tensorG : DenseTensor := ⟨⟨[6]⟩, DataType.FLOAT32, [7, 7, 7, 7, 7, 7]⟩

/-- A pair of tensors sharing a dtype but nothing else, for the dtype
noninterference witness. -/
def tensorC : DenseTensor := ⟨⟨[4]⟩, DataType.FLOAT64, [0, 1, 2, 3]⟩

/-- Same dtype as `tensorC`, different dims and data. -/
def tensorD : DenseTensor := ⟨⟨[1, 1]⟩, DataType.FLOAT64, [42]⟩

/-! ## `test/prim/pir_prim/CMakeLists.txt` -/

/-- The seven pure-PIR test cases set at the top of
`test/prim/pir_prim/CMakeLists.txt`. -/
def TEST_PRIM_PURE_PIR_CASES : List String :=
  ["test_prim_program", "test_prim_simpnet", "test_prim_custom_vjp",
   "test_prim_jit", "test_pir_prim_flags", "test_sink_decomp",
   "test_prim_dynamic"]

/-- The ENVS passed by the first `foreach` loop. -/
def purePirEnvs : List String :=
  ["GLOG_v=1", "FLAGS_enable_pir_api=true", "FLAGS_prim_skip_dynamic=1"]

/-- The ENVS passed by the second `foreach` loop. -/
def transPirEnvs : List String :=
  ["GLOG_v=1", "FLAGS_enable_pir_in_executor=true"]

/-- One `py_test_modules(target MODULES target ENVS ...)` invocation. -/
structure PyTestRegistration where
  target : String
  modules : List String
  envs : List String
deriving DecidableEq, Repr

/-- CMake `list(REMOVE_ITEM l items)`: removes all occurrences of each of
`items` from `l`. -/
def cmakeRemoveItems (l : List String) (items : List String) : List String :=
  l.filter (fun x => !items.contains x)

/-- The sequence of `py_test_modules` registrations made by
`test/prim/pir_prim/CMakeLists.txt`, as a function of the result
`globbed` of `file(GLOB ... "test_*.py")` with `.py` stripped: the first
loop registers the pure-PIR cases with `purePirEnvs`, the second loop
registers `globbed` minus the pure-PIR cases with `transPirEnvs`. -/
def pirPrimRegistrations (globbed : List String) : List PyTestRegistration :=
  TEST_PRIM_PURE_PIR_CASES.map (fun t => ⟨t, [t], purePirEnvs⟩)
    ++ (cmakeRemoveItems globbed TEST_PRIM_PURE_PIR_CASES).map
        (fun t => ⟨t, [t], transPirEnvs⟩)

/-- The environment lists of all registrations of module `t`, in order. -/
def registeredEnvs (globbed : List String) (t : String) : List (List String) :=
  ((pirPrimRegistrations globbed).filter (fun r => r.target == t)).map
    PyTestRegistration.envs

/-! ## mkldnn cc-test CMake file (`src/unnamed/part_000`) -/

/-- One `cc_test(name SRCS ... DEPS ...)` declaration. -/
structure CcTest where
  name : String
  srcs : List String
  deps : List String
deriving DecidableEq, Repr

/-- The `TEST_MKLDNN_CACHING_DEPS` list, including the conditional
`depthwise_conv` dependency added when `WITH_GPU OR WITH_ROCM`. -/
def TEST_MKLDNN_CACHING_DEPS (withGpu withRocm : Bool) : List String :=
  let base := ["op_registry", "elementwise_mul_op", "elementwise_add_op",
    "activation_op", "phi", "common", "scope", "device_context", "enforce",
    "generated_static_op"]
  if withGpu || withRocm then base ++ ["depthwise_conv"] else base

/-- The `cc_test` declarations of the mkldnn test CMake file, in source
order.  The `paddle_test(test_mkldnn_op_nhwc ...)` and `copy_onnx(...)`
lines use different commands and declare no `cc_test`, so they do not
appear in this list. -/
def mkldnnCcTests (withGpu withRocm : Bool) : List CcTest :=
  [⟨"test_mkldnn_op_inplace", ["test_mkldnn_op_inplace.cc"],
    ["executor", "op_registry", "elementwise_add_op", "activation_op",
     "phi", "common", "scope", "device_context", "enforce",
     "generated_static_op"]⟩,
   ⟨"test_mkldnn_cpu_quantize_pass", ["test_mkldnn_cpu_quantize_pass.cc"],
    ["executor", "op_registry", "activation_op",
     "conv_activation_mkldnn_fuse_pass", "cpu_quantize_placement_pass",
     "cpu_quantize_pass", "phi", "common", "scope", "device_context"]⟩,
   ⟨"test_conv_mkldnn_nhwc", ["test_conv_mkldnn_nhwc.cc"],
    ["executor", "op_registry", "depthwise_conv", "tensor", "phi",
     "common", "scope", "device_context", "enforce",
     "generated_static_op"]⟩,
   ⟨"test_mkldnn_caching", ["test_mkldnn_caching.cc"],
    TEST_MKLDNN_CACHING_DEPS withGpu withRocm⟩,
   ⟨"test_mkldnn_pool_adaptive_op", ["test_mkldnn_pool_adaptive_op.cc"],
    ["fleet_executor", "conditional_block_op", "executor", "op_registry",
     "generated_static_op", "generated_op", "phi", "common", "scope",
     "device_context", "enforce"]⟩,
   ⟨"test_mkldnn_squeeze", ["test_mkldnn_squeeze.cc"],
    ["fleet_executor", "conditional_block_op", "executor", "op_registry",
     "generated_static_op", "generated_op", "phi", "scope",
     "device_context", "enforce"]⟩]

/-! ## `paddle/fluid/pir/dialect/operator/ir/manual_api.h` -/

/-- The function prototypes declared in `manual_api.h` inside
`namespace paddle::dialect`, in source order, as (name, number of
parameters).  `split_with_num_grad` is declared twice (two overloads).
Every one of them is a bare prototype: the header contains no function
body. -/
def manualApiPrototypes : List (String × Nat) :=
  [("builtin_combine", 1), ("add_n_grad", 2), ("zeros_like", 3),
   ("parameter", 1), ("set_parameter", 2), ("embedding_grad", 5),
   ("split_with_num_grad", 2), ("split_with_num_grad", 2),
   ("ones", 3), ("ones_like", 3), ("zeros", 3), ("create_array", 1),
   ("create_array_like", 2), ("array_length", 1), ("array_read", 2),
   ("array_write_", 3), ("array_to_tensor", 3), ("tensor_to_array", 4),
   ("add_n_array", 1), ("slice_array_dense", 2), ("assign", 1)]

/-- The twenty helper-op names the spec enumerates for `manual_api.h`. -/
def manualApiClaimedNames : List String :=
  ["builtin_combine", "add_n_grad", "zeros_like", "parameter",
   "set_parameter", "embedding_grad", "split_with_num_grad", "ones",
   "ones_like", "zeros", "create_array", "create_array_like",
   "array_length", "array_read", "array_write_", "array_to_tensor",
   "tensor_to_array", "add_n_array", "slice_array_dense", "assign"]

/-- The four provided source files and the names of the functions each
one DEFINES (gives a body to).  `view_grad_kernel.cc` defines the two
gradient kernels; the header and the two CMake files define no C++
function. -/
def providedSourceDefinedFunctions : List (String × List String) :=
  [("paddle/fluid/pir/dialect/operator/ir/manual_api.h", []),
   ("paddle/phi/kernels/stride/view_grad_kernel.cc",
    ["ViewShapeGradKernel", "ViewDtypeGradKernel"]),
   ("test/prim/pir_prim/CMakeLists.txt", []),
   ("unnamed/part_000", [])]

/-! ## Theorems -/

/-- C1: the shape-view gradient kernel is the forward view kernel applied
to `out_grad` with `vectorize(input.dims())`, for every device context,
input, out_grad and dims vector. -/
theorem viewShapeGradKernel_is_forward_on_input_dims {Ctx : Type}
    (viewShapeKernel : Ctx → DenseTensor → List Int → DenseTensor)
    (dev_ctx : Ctx) (input out_grad : DenseTensor) (dims : List Int) :
    ViewShapeGradKernel viewShapeKernel dev_ctx input out_grad dims =
      viewShapeKernel dev_ctx out_grad (vectorize input.dims) := rfl

/-- C2: the dtype-view gradient kernel is the forward view kernel applied
to `out_grad` with `input.dtype()`, for every device context, input,
out_grad and dtype. -/
theorem viewDtypeGradKernel_is_forward_on_input_dtype {Ctx : Type}
    (viewDtypeKernel : Ctx → DenseTensor → DataType → DenseTensor)
    (dev_ctx : Ctx) (input out_grad : DenseTensor) (dtype : DataType) :
    ViewDtypeGradKernel viewDtypeKernel dev_ctx input out_grad dtype =
      viewDtypeKernel dev_ctx out_grad input.dtype := rfl

/-- C3: if the forward kernel always produces an output whose dims equal
the dims vector it is given, then after `ViewShapeGradKernel` the gradient
has the dims of `input`, regardless of the explicit `dims` argument. -/
theorem viewShapeGradKernel_restores_input_dims {Ctx : Type}
    (viewShapeKernel : Ctx → DenseTensor → List Int → DenseTensor)
    (hfwd : ∀ (ctx : Ctx) (t : DenseTensor) (d : List Int),
      (viewShapeKernel ctx t d).dims = make_ddim d)
    (dev_ctx : Ctx) (input out_grad : DenseTensor) (dims : List Int) :
    (ViewShapeGradKernel viewShapeKernel dev_ctx input out_grad dims).dims =
      input.dims := by
  show (viewShapeKernel dev_ctx out_grad (vectorize input.dims)).dims =
    input.dims
  rw [hfwd]
  rfl

/-- Witness for C3 at a concrete forward kernel and concrete tensors. -/
theorem viewShapeGradKernel_restores_input_dims_witness :
    (ViewShapeGradKernel sampleViewShapeKernel () tensorA tensorG
      [6, 1]).dims = tensorA.dims :=
  viewShapeGradKernel_restores_input_dims sampleViewShapeKernel
    (fun _ _ _ => rfl) () tensorA tensorG [6, 1]

/-- C4: `ViewShapeGradKernel` depends on its arguments only through the
device context, `out_grad` and `input.dims()`: two calls whose inputs have
equal dims give identical gradients whatever their data, dtypes and
explicit `dims` arguments are. -/
theorem viewShapeGradKernel_depends_only_on_input_dims {Ctx : Type}
    (viewShapeKernel : Ctx → DenseTensor → List Int → DenseTensor)
    (dev_ctx : Ctx) (input₁ input₂ out_grad : DenseTensor)
    (dims₁ dims₂ : List Int) (hdims : input₁.dims = input₂.dims) :
    ViewShapeGradKernel viewShapeKernel dev_ctx input₁ out_grad dims₁ =
      ViewShapeGradKernel viewShapeKernel dev_ctx input₂ out_grad dims₂ := by
  unfold ViewShapeGradKernel
  rw [hdims]

/-- Witness for C4: `tensorA` and `tensorB` share dims but differ in dtype
and data, and the two `dims` arguments differ. -/
theorem viewShapeGradKernel_depends_only_on_input_dims_witness :
    ViewShapeGradKernel sampleViewShapeKernel () tensorA tensorG [3, 2] =
      ViewShapeGradKernel sampleViewShapeKernel () tensorB tensorG [6] :=
  viewShapeGradKernel_depends_only_on_input_dims sampleViewShapeKernel
    () tensorA tensorB tensorG [3, 2] [6] rfl

/-- C5: `ViewDtypeGradKernel` depends on its arguments only through the
device context, `out_grad` and `input.dtype()`: two calls whose inputs
have equal dtype give identical gradients whatever their data, shapes and
explicit `dtype` arguments are. -/
theorem viewDtypeGradKernel_depends_only_on_input_dtype {Ctx : Type}
    (viewDtypeKernel : Ctx → DenseTensor → DataType → DenseTensor)
    (dev_ctx : Ctx) (input₁ input₂ out_grad : DenseTensor)
    (dtype₁ dtype₂ : DataType) (hdt : input₁.dtype = input₂.dtype) :
    ViewDtypeGradKernel viewDtypeKernel dev_ctx input₁ out_grad dtype₁ =
      ViewDtypeGradKernel viewDtypeKernel dev_ctx input₂ out_grad dtype₂ := by
  unfold ViewDtypeGradKernel
  rw [hdt]

/-- Witness for C5: `tensorC` and `tensorD` share a dtype but differ in
dims and data, and the two `dtype` arguments differ. -/
theorem viewDtypeGradKernel_depends_only_on_input_dtype_witness :
    ViewDtypeGradKernel sampleViewDtypeKernel () tensorC tensorG
        DataType.INT32 =
      ViewDtypeGradKernel sampleViewDtypeKernel () tensorD tensorG
        DataType.BOOL :=
  viewDtypeGradKernel_depends_only_on_input_dtype sampleViewDtypeKernel
    () tensorC tensorD tensorG DataType.INT32 DataType.BOOL rfl

/-- C6: in the pir_prim test wiring, for any duplicate-free glob result,
every module is registered exactly once: a pure-PIR case is registered
exactly once, with the pure-PIR environment; any other globbed `test_*.py`
module is registered exactly once, with the `FLAGS_enable_pir_in_executor`
environment; a module in neither list is never registered.  In particular
no module is registered under both regimes. -/
theorem pirPrim_each_module_registered_once (globbed : List String)
    (hnd : globbed.Nodup) (t : String) :
    (t ∈ TEST_PRIM_PURE_PIR_CASES →
      registeredEnvs globbed t = [purePirEnvs]) ∧
    (t ∉ TEST_PRIM_PURE_PIR_CASES → t ∈ globbed →
      registeredEnvs globbed t = [transPirEnvs]) ∧
    (t ∉ TEST_PRIM_PURE_PIR_CASES → t ∉ globbed →
      registeredEnvs globbed t = []) := by
  have hfilter : ∀ (l : List String) (e : List String),
      ((l.map (fun s => PyTestRegistration.mk s [s] e)).filter
        (fun r => r.target == t)) =
      (l.filter (fun s => s == t)).map
        (fun s => PyTestRegistration.mk s [s] e) := by
    intro l e
    induction l with
    | nil => rfl
    | cons a l ih =>
      by_cases h : a = t
      · subst h
        simp [ih]
      · simp [List.filter_cons, h, ih]
  unfold registeredEnvs pirPrimRegistrations
  rw [List.filter_append, hfilter, hfilter]
  refine ⟨?_, ?_, ?_⟩
  · intro ht
    have h1 : TEST_PRIM_PURE_PIR_CASES.filter (fun s => s == t) = [t] := by
      fin_cases ht <;> decide
    have h2 : (cmakeRemoveItems globbed TEST_PRIM_PURE_PIR_CASES).filter
        (fun s => s == t) = [] := by
      apply List.filter_eq_nil_iff.mpr
      intro s hs hst
      have hseq : s = t := by simpa using hst
      subst hseq
      exact absurd ht (by simpa [cmakeRemoveItems] using
        (List.mem_filter.mp hs).2)
    rw [h1, h2]
    simp
  · intro hnot hin
    have h1 : TEST_PRIM_PURE_PIR_CASES.filter (fun s => s == t) = [] := by
      apply List.filter_eq_nil_iff.mpr
      intro s hs hst
      have hseq : s = t := by simpa using hst
      subst hseq
      exact hnot hs
    have h2 : (cmakeRemoveItems globbed TEST_PRIM_PURE_PIR_CASES).filter
        (fun s => s == t) = [t] := by
      unfold cmakeRemoveItems
      rw [List.filter_filter]
      have heq : globbed.filter
          (fun s => (s == t) && !TEST_PRIM_PURE_PIR_CASES.contains s) =
          globbed.filter (fun s => s == t) := by
        apply List.filter_congr
        intro s _
        by_cases h : s = t
        · subst h
          simp [hnot]
        · simp [h]
      rw [heq, List.filter_beq, List.count_eq_one_of_mem hnd hin]
      rfl
    rw [h1, h2]
    simp
  · intro hnot hng
    have h1 : TEST_PRIM_PURE_PIR_CASES.filter (fun s => s == t) = [] := by
      apply List.filter_eq_nil_iff.mpr
      intro s hs hst
      have hseq : s = t := by simpa using hst
      subst hseq
      exact hnot hs
    have h2 : (cmakeRemoveItems globbed TEST_PRIM_PURE_PIR_CASES).filter
        (fun s => s == t) = [] := by
      apply List.filter_eq_nil_iff.mpr
      intro s hs hst
      have hseq : s = t := by simpa using hst
      subst hseq
      exact hng (by simpa [cmakeRemoveItems] using
        (List.mem_filter.mp hs).1)
    rw [h1, h2]
    simp

/-- Witness for C6: with a concrete glob result containing one pure-PIR
case and one other module, the pure case gets exactly the pure-PIR
environment and the other module exactly the executor-translation
environment. -/
theorem pirPrim_each_module_registered_once_witness :
    registeredEnvs ["test_prim_program", "test_auto_recompute"]
        "test_prim_program" = [purePirEnvs] ∧
    registeredEnvs ["test_prim_program", "test_auto_recompute"]
        "test_auto_recompute" = [transPirEnvs] :=
  ⟨(pirPrim_each_module_registered_once
      ["test_prim_program", "test_auto_recompute"] (by decide)
      "test_prim_program").1 (by decide),
   (pirPrim_each_module_registered_once
      ["test_prim_program", "test_auto_recompute"] (by decide)
      "test_auto_recompute").2.1 (by decide) (by decide)⟩

/-- C7: for every build configuration, the mkldnn CMake file declares the
test target `test_mkldnn_cpu_quantize_pass` with dependencies that
include `conv_activation_mkldnn_fuse_pass`, `cpu_quantize_placement_pass`
and `cpu_quantize_pass`. -/
theorem test_mkldnn_cpu_quantize_pass_covers_fusion_and_quantization :
    ∀ (withGpu withRocm : Bool),
      ((mkldnnCcTests withGpu withRocm).any (fun tc =>
        tc.name == "test_mkldnn_cpu_quantize_pass"
          && tc.deps.contains "conv_activation_mkldnn_fuse_pass"
          && tc.deps.contains "cpu_quantize_placement_pass"
          && tc.deps.contains "cpu_quantize_pass")) = true := by
  decide

/-- C8: every helper-op name the spec lists for `manual_api.h` is indeed
declared there (and nothing else is), and none of these functions has a
definition in any of the four provided source files: the excerpt fixes no
input-output behaviour for them. -/
theorem manual_api_functions_declared_but_never_defined :
    (manualApiClaimedNames.all (fun f =>
        (manualApiPrototypes.map Prod.fst).contains f)
      && (manualApiPrototypes.map Prod.fst).all (fun f =>
        manualApiClaimedNames.contains f)
      && manualApiClaimedNames.all (fun f =>
        providedSourceDefinedFunctions.all (fun p =>
          !(p.2.contains f)))) = true := by
  decide

end Paddle
